import Mathlib

/-
Verification of the rustbase query execution core (src/server/engine/core.rs)
against its specification. The AST, storage interface, permission parser and
wire types live outside the provided sources; they are modelled from the spec
where noted. The executor `run_ast` is embedded as a function from an abstract
storage interface and an AST node to an execution outcome together with the
trace of storage operations performed, so that "never calls the storage
interface" is the trace being empty. Rust panics (Vec index out of bounds,
Option::unwrap on None, unreachable!) are modelled by the `aborted` outcome.
-/

namespace Rustbase

/-- Modelled from the spec: the query keywords (closed set, section 3). -/
inductive Keywords where
  | Insert
  | Update
  | Delete
  | Get
  | List
deriving DecidableEq

/-- Modelled from the spec: the monadic-expression verbs (closed set, section 3). -/
inductive Verbs where
  | User
  | Database
deriving DecidableEq

/-- The host string type, usable inside namespaces whose constructors shadow
the name String. -/
abbrev HostString : Type := String

/-- Modelled from the spec: a structured scalar/document value (bson::Bson).
Only the constructors the core touches are needed: strings (as_str), arrays
(list results), plus non-string scalars and documents for literal kinds. -/
inductive Bson where
  | String (s : String)
  | Int32 (i : Int)
  | Boolean (b : Bool)
  | Array (elems : List Bson)
  | Document (fields : List (String × Bson))

/-- bson::Bson::as_str: Some for a string value, None for any other kind. -/
def Bson.as_str : Bson → Option HostString
  | .String s => some s
  | _ => none

/-- Modelled from the spec: the AST node shapes (section 3), with the field
names used by core.rs (json/ident for IntoExpression, expr for
MonadicExpression). Boxes are dropped; `Bson` is the literal node. -/
inductive ASTNode where
  | IntoExpression (keyword : Keywords) (json : ASTNode) (ident : ASTNode)
  | MonadicExpression (keyword : Keywords) (verb : Verbs) (expr : Option (List ASTNode))
  | SingleExpression (keyword : Keywords) (ident : Option ASTNode)
  | Identifier (name : String)
  | Bson (value : Bson)
  | AssignmentExpression (ident : String) (value : ASTNode)

/-- Modelled from the spec: the closed wire status set (section 6 lists at
least Ok, InvalidQuery, NotFound, AlreadyExists). -/
inductive Status where
  | Ok
  | InvalidQuery
  | NotFound
  | AlreadyExists
deriving DecidableEq

/-- Modelled from the spec: the storage error codes mapped by
parse_dd_error_code (dustdata::ErrorCode). -/
inductive ErrorCode where
  | KeyExists
  | KeyNotExists
  | NotFound
deriving DecidableEq

/-- A storage-internal error payload; core.rs reads only its `code` field. -/
structure DDError where
  code : ErrorCode

/-- Modelled from the spec: the two-variant transaction result tag
(section 3): internal failures carry a storage error code, external failures
an already-resolved status and message. -/
inductive TransactionError where
  | InternalError (e : DDError)
  | ExternalError (status : Status) (message : String)

/-- wirewave::server::ResHeader as used by core.rs. -/
structure ResHeader where
  is_error : Bool
  messages : Option (List String)
  status : Status

/-- wirewave::server::Response as used by core.rs. -/
structure Response where
  body : Option Bson
  header : ResHeader

/-- wirewave::server::Error as used by core.rs. -/
structure Error where
  message : String
  query_message : Option String
  status : Status

/-- Modelled from the spec: the permission levels (closed set, section 3). -/
inductive UserPermission where
  | Read
  | Write
  | ReadAndWrite
  | Admin
deriving DecidableEq

/-- Modelled from the spec: UserPermission::from_str parses the case-sensitive
strings read, write, read_and_write, admin (sections 3 and 8) and fails on any
other string. -/
def UserPermission.from_str : String → Except Unit UserPermission
  | "read" => Except.ok UserPermission.Read
  | "write" => Except.ok UserPermission.Write
  | "read_and_write" => Except.ok UserPermission.ReadAndWrite
  | "admin" => Except.ok UserPermission.Admin
  | _ => Except.error ()

/-- One storage-interface call with its arguments, recorded in the trace. -/
inductive StorageOp where
  | insert (key : String) (value : Bson)
  | update (key : String) (value : Bson)
  | get (key : String)
  | delete (key : String)
  | listKeys
  | createUser (name : String) (password : String) (permission : UserPermission)
  | updateUser (name : String) (password : Option String) (permission : Option UserPermission)
  | deleteUser (name : String)
  | deleteDatabase (name : String)

/-- Modelled from the spec: the storage interface consumed by the executor
(section 6), each operation returning success or a tagged transaction
failure, plus the session's current database name held by the interface. -/
structure Interface where
  current_database : String
  insert_into_dustdata : String → Bson → Except TransactionError Unit
  update_dustdata : String → Bson → Except TransactionError Unit
  get_from_dustdata : String → Except TransactionError Bson
  delete_from_dustdata : String → Except TransactionError Unit
  list_from_dustdata : Except TransactionError (List String)
  create_user : String → String → UserPermission → Except TransactionError Unit
  update_user : String → Option String → Option UserPermission → Except TransactionError Unit
  delete_user : String → Except TransactionError Unit
  delete_database : String → Except TransactionError Unit

/-- The outcome of one executor call: Ok(Response), Err(Error), or a Rust
panic (index out of bounds, unwrap on None, unreachable!). -/
inductive ExecResult where
  | ok (r : Response)
  | err (e : Error)
  | aborted (msg : String)

/-- Whether the outcome is a panic. -/
def ExecResult.isAborted : ExecResult → Bool
  | .aborted _ => true
  | _ => false

/-- The Error built by core.rs's query_error helper. -/
def queryErr (msg : String) : Error :=
  { message := msg, query_message := none, status := Status.InvalidQuery }

/-- core.rs query_error: an InvalidQuery error with the given message. -/
def query_error (msg : String) : ExecResult :=
  ExecResult.err (queryErr msg)

/-- core.rs parse_dd_error_code: the fixed storage-code to (status, message)
table. -/
def parse_dd_error_code : ErrorCode → Status × String
  | .KeyExists => (Status.AlreadyExists, "key already exists")
  | .KeyNotExists => (Status.AlreadyExists, "key not exists")
  | .NotFound => (Status.NotFound, "not found")

/-- Core::dd_error: translate a transaction failure into a wire Error. -/
def dd_error : TransactionError → ExecResult
  | .InternalError e =>
      let code := parse_dd_error_code e.code
      ExecResult.err { message := code.2, query_message := none, status := code.1 }
  | .ExternalError s message =>
      ExecResult.err { message := message, query_message := none, status := s }

/-- Debug formatting of a keyword, as Rust's derived Debug prints it. -/
def Keywords.debugStr : Keywords → String
  | .Insert => "Insert"
  | .Update => "Update"
  | .Delete => "Delete"
  | .Get => "Get"
  | .List => "List"

/-- Debug formatting of a verb, as Rust's derived Debug prints it. -/
def Verbs.debugStr : Verbs → String
  | .User => "User"
  | .Database => "Database"

/-- The message of Core's invalid-permission query error
(same literal in ast_user_insert and ast_user_update). -/
def permissionErrorMessage : String :=
  "permission must be 'read' or 'write', 'read_and_write', or 'admin'"

/-- The empty-body Ok response that core.rs builds inline on success paths. -/
def emptyOkResponse : Response :=
  { body := none, header := { is_error := false, messages := none, status := Status.Ok } }

/-- Core::ast_into_insert: key must be an Identifier, value a Bson literal,
then one insert call. -/
def ast_into_insert (iface : Interface) (value expr : ASTNode) :
    ExecResult × List StorageOp :=
  match expr with
  | .Identifier ident =>
    match value with
    | .Bson json =>
      match iface.insert_into_dustdata ident json with
      | .ok _ =>
        (ExecResult.ok
            { body := none,
              header := { is_error := false, messages := none, status := Status.Ok } },
          [StorageOp.insert ident json])
      | .error e => (dd_error e, [StorageOp.insert ident json])
    | _ => (query_error "value must be a json object", [])
  | _ => (query_error "key must be an identifier", [])

/-- Core::ast_into_update: same shape validation as insert, then one update
call. -/
def ast_into_update (iface : Interface) (value expr : ASTNode) :
    ExecResult × List StorageOp :=
  match expr with
  | .Identifier ident =>
    match value with
    | .Bson json =>
      match iface.update_dustdata ident json with
      | .ok _ =>
        (ExecResult.ok
            { body := none,
              header := { is_error := false, messages := none, status := Status.Ok } },
          [StorageOp.update ident json])
      | .error e => (dd_error e, [StorageOp.update ident json])
    | _ => (query_error "value must be a json object", [])
  | _ => (query_error "key must be an identifier", [])

/-- The scanning loop of Core::ast_user_insert: left-to-right over the
argument nodes, threading the mutable username/permission/password
accumulators, with the loop's early returns as errors. -/
def user_insert_scan : List ASTNode → HostString → HostString → HostString →
    Except Error (HostString × HostString × HostString)
  | [], username, permission, password => Except.ok (username, permission, password)
  | node :: rest, username, permission, password =>
    match node with
    | .AssignmentExpression ident value =>
      if ident = "password" then
        match value with
        | .Bson s =>
          match s.as_str with
          | some s => user_insert_scan rest username permission s
          | none => Except.error (queryErr "password must be a string")
        | _ => Except.error (queryErr "password must be a string")
      else if ident = "permission" then
        match value with
        | .Bson s =>
          match s.as_str with
          | some s => user_insert_scan rest username s password
          | none => Except.error (queryErr "permission must be a string")
        | _ => Except.error (queryErr "permission must be a string")
      else user_insert_scan rest username permission password
    | .Identifier ident => user_insert_scan rest ident permission password
    | _ => user_insert_scan rest username permission password

/-- Core::ast_user_insert: scan the argument list, require all three fields
non-empty, parse the permission, then one create_user call. -/
def ast_user_insert (iface : Interface) (expr : Option (List ASTNode)) :
    ExecResult × List StorageOp :=
  match expr with
  | none => (query_error "user insert must have an expression", [])
  | some expr =>
    match user_insert_scan expr "" "" "" with
    | .error e => (ExecResult.err e, [])
    | .ok (username, permission, password) =>
      if username.isEmpty || password.isEmpty || permission.isEmpty then
        (query_error "username, password, and permission are required", [])
      else
        match UserPermission.from_str permission with
        | .error _ => (query_error permissionErrorMessage, [])
        | .ok permission =>
          match iface.create_user username password permission with
          | .ok _ =>
            (ExecResult.ok
                { body := none,
                  header := { is_error := false, messages := none, status := Status.Ok } },
              [StorageOp.createUser username password permission])
          | .error e => (dd_error e, [StorageOp.createUser username password permission])

/-- Core::ast_user_delete: expr[0] (a panic when the list is present but
empty) must be an Identifier, then one delete_user call. -/
def ast_user_delete (iface : Interface) (expr : Option (List ASTNode)) :
    ExecResult × List StorageOp :=
  match expr with
  | some expr =>
    match expr with
    | [] => (ExecResult.aborted "index out of bounds: the len is 0 but the index is 0", [])
    | node :: _ =>
      match node with
      | .Identifier ident =>
        match iface.delete_user ident with
        | .ok _ =>
          (ExecResult.ok
              { body := none,
                header := { is_error := false, messages := none, status := Status.Ok } },
            [StorageOp.deleteUser ident])
        | .error e => (dd_error e, [StorageOp.deleteUser ident])
      | _ => (query_error "user delete must have an expression", [])
  | none => (query_error "user delete must have an expression", [])

/-- The scanning loop of Core::ast_user_update: like the insert scan, but the
accumulators for password and permission are Options, a non-string Bson
literal is still an early error, and a non-Bson value resets the field to
None. -/
def user_update_scan : List ASTNode → Option HostString → Option HostString → HostString →
    Except Error (Option HostString × Option HostString × HostString)
  | [], password, permission, username => Except.ok (password, permission, username)
  | node :: rest, password, permission, username =>
    match node with
    | .AssignmentExpression ident value =>
      if ident = "password" then
        match value with
        | .Bson s =>
          match s.as_str with
          | some s => user_update_scan rest (some s) permission username
          | none => Except.error (queryErr "password must be a string")
        | _ => user_update_scan rest none permission username
      else if ident = "permission" then
        match value with
        | .Bson s =>
          match s.as_str with
          | some s => user_update_scan rest password (some s) username
          | none => Except.error (queryErr "permission must be a string")
        | _ => user_update_scan rest password none username
      else user_update_scan rest password permission username
    | .Identifier ident => user_update_scan rest password permission ident
    | _ => user_update_scan rest password permission username

/-- Core::ast_user_update: scan the argument list, parse the permission when
present, then one update_user call (the username is forwarded unchecked). -/
def ast_user_update (iface : Interface) (expr : Option (List ASTNode)) :
    ExecResult × List StorageOp :=
  match expr with
  | none => (query_error "user update must have an expression", [])
  | some expr =>
    match user_update_scan expr none none "" with
    | .error e => (ExecResult.err e, [])
    | .ok (password, permission, username) =>
      match (match permission with
             | some p => (UserPermission.from_str p).map some
             | none => Except.ok none) with
      | .error _ => (query_error permissionErrorMessage, [])
      | .ok permission =>
        match iface.update_user username password permission with
        | .ok _ =>
          (ExecResult.ok
              { body := none,
                header := { is_error := false, messages := none, status := Status.Ok } },
            [StorageOp.updateUser username password permission])
        | .error e => (dd_error e, [StorageOp.updateUser username password permission])

/-- Core::ast_database_delete: expr[0] (a panic when the list is present but
empty) must be an Identifier (unreachable! otherwise); without an argument
list the session's current database is used; then one delete_database
call. -/
def ast_database_delete (iface : Interface) (expr : Option (List ASTNode)) :
    ExecResult × List StorageOp :=
  match expr with
  | some expr =>
    match expr with
    | [] => (ExecResult.aborted "index out of bounds: the len is 0 but the index is 0", [])
    | node :: _ =>
      match node with
      | .Identifier ident =>
        match iface.delete_database ident with
        | .ok _ =>
          (ExecResult.ok
              { body := none,
                header := { is_error := false, messages := none, status := Status.Ok } },
            [StorageOp.deleteDatabase ident])
        | .error e => (dd_error e, [StorageOp.deleteDatabase ident])
      | _ => (ExecResult.aborted "internal error: entered unreachable code", [])
  | none =>
    match iface.delete_database iface.current_database with
    | .ok _ =>
      (ExecResult.ok
          { body := none,
            header := { is_error := false, messages := none, status := Status.Ok } },
        [StorageOp.deleteDatabase iface.current_database])
    | .error e => (dd_error e, [StorageOp.deleteDatabase iface.current_database])

/-- Core::ast_sgl_get: an absent identifier is a query error, a present
non-identifier hits unreachable!, then one get call with the value in the
response body. -/
def ast_sgl_get (iface : Interface) (ident : Option ASTNode) :
    ExecResult × List StorageOp :=
  match ident with
  | none => (query_error "get must have an expression", [])
  | some node =>
    match node with
    | .Identifier key =>
      match iface.get_from_dustdata key with
      | .ok value =>
        (ExecResult.ok
            { body := some value,
              header := { is_error := false, messages := none, status := Status.Ok } },
          [StorageOp.get key])
      | .error e => (dd_error e, [StorageOp.get key])
    | _ => (ExecResult.aborted "internal error: entered unreachable code", [])

/-- Core::ast_sgl_delete: ident.unwrap() (a panic when absent) must be an
Identifier (unreachable! otherwise), then one delete call. -/
def ast_sgl_delete (iface : Interface) (ident : Option ASTNode) :
    ExecResult × List StorageOp :=
  match ident with
  | none => (ExecResult.aborted "called Option::unwrap() on a None value", [])
  | some node =>
    match node with
    | .Identifier key =>
      match iface.delete_from_dustdata key with
      | .ok _ =>
        (ExecResult.ok
            { body := none,
              header := { is_error := false, messages := none, status := Status.Ok } },
          [StorageOp.delete key])
      | .error e => (dd_error e, [StorageOp.delete key])
    | _ => (ExecResult.aborted "internal error: entered unreachable code", [])

/-- Core::ast_sgl_list: one list call, the keys as a Bson string array in the
response body. -/
def ast_sgl_list (iface : Interface) : ExecResult × List StorageOp :=
  match iface.list_from_dustdata with
  | .ok keys =>
    (ExecResult.ok
        { body := some (Bson.Array (keys.map Bson.String)),
          header := { is_error := false, messages := none, status := Status.Ok } },
      [StorageOp.listKeys])
  | .error e => (dd_error e, [StorageOp.listKeys])

/-- Core::expr_into: dispatch an IntoExpression on its keyword. -/
def expr_into (iface : Interface) (keyword : Keywords) (value expr : ASTNode) :
    ExecResult × List StorageOp :=
  match keyword with
  | .Insert => ast_into_insert iface value expr
  | .Update => ast_into_update iface value expr
  | _ =>
    (ExecResult.err
        { message := keyword.debugStr ++ " is unexpected for into expression",
          query_message := none, status := Status.InvalidQuery }, [])

/-- Core::monadic_expr: dispatch a MonadicExpression on keyword then verb. -/
def monadic_expr (iface : Interface) (keyword : Keywords) (verb : Verbs)
    (expr : Option (List ASTNode)) : ExecResult × List StorageOp :=
  match keyword with
  | .Insert =>
    match verb with
    | .User => ast_user_insert iface expr
    | _ =>
      (ExecResult.err
          { message := verb.debugStr ++ " is unexpected for insert expression",
            query_message := none, status := Status.InvalidQuery }, [])
  | .Delete =>
    match verb with
    | .Database => ast_database_delete iface expr
    | .User => ast_user_delete iface expr
  | .Update =>
    match verb with
    | .User => ast_user_update iface expr
    | _ =>
      (ExecResult.err
          { message := verb.debugStr ++ " is unexpected for update expression",
            query_message := none, status := Status.InvalidQuery }, [])
  | _ =>
    (ExecResult.err
        { message := keyword.debugStr ++ " is unexpected for monadic expression",
          query_message := none, status := Status.InvalidQuery }, [])

/-- Core::sgl_expr: dispatch a SingleExpression on its keyword. -/
def sgl_expr (iface : Interface) (keyword : Keywords) (ident : Option ASTNode) :
    ExecResult × List StorageOp :=
  match keyword with
  | .Get => ast_sgl_get iface ident
  | .Delete => ast_sgl_delete iface ident
  | .List => ast_sgl_list iface
  | _ =>
    (ExecResult.err
        { message := keyword.debugStr ++ " is unexpected for single expression",
          query_message := none, status := Status.InvalidQuery }, [])

/-- Core::run_ast, the executor's entry point: dispatch on the node shape;
anything other than the three expression shapes is the generic
Invalid query error. -/
def run_ast (iface : Interface) (ast : ASTNode) : ExecResult × List StorageOp :=
  match ast with
  | .IntoExpression keyword json ident => expr_into iface keyword json ident
  | .MonadicExpression keyword verb expr => monadic_expr iface keyword verb expr
  | .SingleExpression keyword ident => sgl_expr iface keyword ident
  | _ =>
    (ExecResult.err
        { message := "Invalid query",
          query_message := none, status := Status.InvalidQuery }, [])

/-- Modelled from the spec: the dispatch table of section 4.1, as a predicate
on the (node shape, keyword, verb) combination of a top-level node. -/
def inDispatchTable : ASTNode → Bool
  | .IntoExpression keyword _ _ =>
    match keyword with
    | .Insert => true
    | .Update => true
    | _ => false
  | .MonadicExpression keyword verb _ =>
    match keyword, verb with
    | .Insert, .User => true
    | .Update, .User => true
    | .Delete, _ => true
    | _, _ => false
  | .SingleExpression keyword _ =>
    match keyword with
    | .Get => true
    | .Delete => true
    | .List => true
    | _ => false
  | _ => false

/-- The exact rejection message core.rs produces for an off-table node:
the unexpected keyword/verb followed by the expression kind it appeared
under, or the generic Invalid query for a non-expression shape. -/
def rejectionMessage : ASTNode → String
  | .IntoExpression keyword _ _ => keyword.debugStr ++ " is unexpected for into expression"
  | .MonadicExpression keyword verb _ =>
    match keyword with
    | .Insert => verb.debugStr ++ " is unexpected for insert expression"
    | .Update => verb.debugStr ++ " is unexpected for update expression"
    | _ => keyword.debugStr ++ " is unexpected for monadic expression"
  | .SingleExpression keyword _ => keyword.debugStr ++ " is unexpected for single expression"
  | _ => "Invalid query"

/-- The shape invariants the external parser guarantees (section 3), at the
points where core.rs panics instead of returning when they are violated:
a single get/delete target, when present, is an Identifier; a single delete
target is present; a present delete-user argument list is non-empty; a
present delete-database argument list starts with an Identifier. -/
def parserSafe : ASTNode → Bool
  | .SingleExpression .Get (some target) =>
    match target with
    | .Identifier _ => true
    | _ => false
  | .SingleExpression .Delete target =>
    match target with
    | some (.Identifier _) => true
    | _ => false
  | .MonadicExpression .Delete .User (some l) => !l.isEmpty
  | .MonadicExpression .Delete .Database (some l) =>
    match l with
    | .Identifier _ :: _ => true
    | _ => false
  | _ => true

/-- Whether a node is a bare Identifier. -/
def ASTNode.isIdentifier : ASTNode → Bool
  | .Identifier _ => true
  | _ => false

/-- Whether a node is a Bson literal. -/
def ASTNode.isBsonNode : ASTNode → Bool
  | .Bson _ => true
  | _ => false

/-- A storage interface on which every operation succeeds, with current
database "db"; get returns the string value "v" and list an empty key set. -/
def trivInterface : Interface :=
  { current_database := "db",
    insert_into_dustdata := fun _ _ => Except.ok (),
    update_dustdata := fun _ _ => Except.ok (),
    get_from_dustdata := fun _ => Except.ok (Bson.String "v"),
    delete_from_dustdata := fun _ => Except.ok (),
    list_from_dustdata := Except.ok [],
    create_user := fun _ _ _ => Except.ok (),
    update_user := fun _ _ _ => Except.ok (),
    delete_user := fun _ => Except.ok (),
    delete_database := fun _ => Except.ok () }

/-- A storage interface whose get fails with the internal NotFound code. -/
def notFoundInterface : Interface :=
  { trivInterface with
    get_from_dustdata := fun _ =>
      Except.error (TransactionError.InternalError { code := ErrorCode.NotFound }) }

theorem dd_error_not_aborted (e : TransactionError) : (dd_error e).isAborted = false := by
  cases e <;> rfl

/-- C2: the storage-internal code KeyNotExists is mapped by
parse_dd_error_code to wire status AlreadyExists (the same status as
KeyExists), not to NotFound. -/
theorem C2_keynotexists_status :
    parse_dd_error_code ErrorCode.KeyNotExists = (Status.AlreadyExists, "key not exists") ∧
    (parse_dd_error_code ErrorCode.KeyNotExists).1 = (parse_dd_error_code ErrorCode.KeyExists).1 ∧
    (parse_dd_error_code ErrorCode.KeyNotExists).1 ≠ Status.NotFound := by
  refine ⟨rfl, rfl, ?_⟩
  decide

/-- C7: user creation with only a username returns the required-fields
InvalidQuery error and performs no storage operation, for every storage
interface. -/
theorem C7_user_insert_requires_all_fields (iface : Interface) :
    run_ast iface (ASTNode.MonadicExpression Keywords.Insert Verbs.User
        (some [ASTNode.Identifier "bob"])) =
      (ExecResult.err (queryErr "username, password, and permission are required"), []) := rfl

/-- C8: database deletion with no argument list performs exactly one storage
operation, delete_database applied to the session's current database name,
for every storage interface. -/
theorem C8_database_delete_uses_current (iface : Interface) :
    (run_ast iface (ASTNode.MonadicExpression Keywords.Delete Verbs.Database none)).2 =
      [StorageOp.deleteDatabase iface.current_database] := by
  cases hdb : iface.delete_database iface.current_database <;>
    simp [run_ast, monadic_expr, ast_database_delete, hdb]

/-- C9: when the storage interface's get fails with internal code NotFound,
the executor returns an Error with status NotFound and message
"not found", having performed exactly that one get call. -/
theorem C9_get_not_found (iface : Interface) (k : String)
    (h : iface.get_from_dustdata k =
      Except.error (TransactionError.InternalError { code := ErrorCode.NotFound })) :
    run_ast iface (ASTNode.SingleExpression Keywords.Get (some (ASTNode.Identifier k))) =
      (ExecResult.err { message := "not found", query_message := none, status := Status.NotFound },
        [StorageOp.get k]) := by
  simp [run_ast, sgl_expr, ast_sgl_get, h, dd_error, parse_dd_error_code]

/-- C9 witness: the theorem at the interface whose get fails with NotFound
and the key "missing". -/
theorem C9_get_not_found_witness :
    notFoundInterface.get_from_dustdata "missing" =
      Except.error (TransactionError.InternalError { code := ErrorCode.NotFound }) ∧
    run_ast notFoundInterface
        (ASTNode.SingleExpression Keywords.Get (some (ASTNode.Identifier "missing"))) =
      (ExecResult.err { message := "not found", query_message := none, status := Status.NotFound },
        [StorageOp.get "missing"]) :=
  ⟨rfl, C9_get_not_found notFoundInterface "missing" rfl⟩

/-- C10 counterexample: when the argument list of a database delete is
absent, the executor does not return a query error: it proceeds against
the session's current database and (on a successful interface) returns Ok.
This refutes the clause "instead of the query error returned when the
argument list is absent" for database delete. -/
theorem C10_database_none_counterexample :
    run_ast trivInterface (ASTNode.MonadicExpression Keywords.Delete Verbs.Database none) =
      (ExecResult.ok emptyOkResponse, [StorageOp.deleteDatabase "db"]) := rfl

/-- C10 amended: a present-but-empty argument list makes both user delete and
database delete panic on expr[0]; with the list absent, user delete returns
the query error "user delete must have an expression" while database delete
proceeds with one delete_database call on the session's current database. -/
theorem C10_empty_arglist_behaviour :
    (∀ iface : Interface,
      run_ast iface (ASTNode.MonadicExpression Keywords.Delete Verbs.User (some [])) =
        (ExecResult.aborted "index out of bounds: the len is 0 but the index is 0", [])) ∧
    (∀ iface : Interface,
      run_ast iface (ASTNode.MonadicExpression Keywords.Delete Verbs.Database (some [])) =
        (ExecResult.aborted "index out of bounds: the len is 0 but the index is 0", [])) ∧
    (∀ iface : Interface,
      run_ast iface (ASTNode.MonadicExpression Keywords.Delete Verbs.User none) =
        (ExecResult.err (queryErr "user delete must have an expression"), [])) ∧
    (∀ iface : Interface,
      (run_ast iface (ASTNode.MonadicExpression Keywords.Delete Verbs.Database none)).2 =
        [StorageOp.deleteDatabase iface.current_database]) := by
  refine ⟨fun _ => rfl, fun _ => rfl, fun _ => rfl, fun iface => ?_⟩
  cases hdb : iface.delete_database iface.current_database <;>
    simp [run_ast, monadic_expr, ast_database_delete, hdb]

/-- C6 counterexample: a single-expression delete whose identifier argument
is absent does not return a query error as Get does: the executor panics
unwrapping the absent Option. -/
theorem C6_delete_none_counterexample :
    (run_ast trivInterface (ASTNode.SingleExpression Keywords.Delete none)).1 =
      ExecResult.aborted "called Option::unwrap() on a None value" := rfl

/-- C6 amended: Get rejects an absent identifier with the query error
"get must have an expression", but Delete panics (Option::unwrap on None)
on the same input; with the identifier present, a successful delete returns
the empty-body Ok response after exactly one delete call. -/
theorem C6_delete_identifier_requirement :
    (∀ iface : Interface,
      run_ast iface (ASTNode.SingleExpression Keywords.Delete none) =
        (ExecResult.aborted "called Option::unwrap() on a None value", [])) ∧
    (∀ (iface : Interface) (k : String), iface.delete_from_dustdata k = Except.ok () →
      run_ast iface (ASTNode.SingleExpression Keywords.Delete (some (ASTNode.Identifier k))) =
        (ExecResult.ok emptyOkResponse, [StorageOp.delete k])) ∧
    (∀ iface : Interface,
      run_ast iface (ASTNode.SingleExpression Keywords.Get none) =
        (ExecResult.err (queryErr "get must have an expression"), [])) := by
  refine ⟨fun _ => rfl, fun iface k h => ?_, fun _ => rfl⟩
  simp [run_ast, sgl_expr, ast_sgl_delete, h, emptyOkResponse]

/-- C6 witness: the success conjunct of the amended theorem at the trivial
interface and key "k". -/
theorem C6_delete_identifier_witness :
    trivInterface.delete_from_dustdata "k" = Except.ok () ∧
    run_ast trivInterface (ASTNode.SingleExpression Keywords.Delete (some (ASTNode.Identifier "k"))) =
      (ExecResult.ok emptyOkResponse, [StorageOp.delete "k"]) :=
  ⟨rfl, C6_delete_identifier_requirement.2.1 trivInterface "k" rfl⟩

/-- C1 counterexample: database deletion whose first argument is not an
Identifier reaches the unreachable! arm of ast_database_delete, so run_ast
aborts instead of returning an Ok or Err value. -/
theorem C1_abort_counterexample :
    (run_ast trivInterface (ASTNode.MonadicExpression Keywords.Delete Verbs.Database
        (some [ASTNode.Bson (Bson.Int32 0)]))).1 =
      ExecResult.aborted "internal error: entered unreachable code" := rfl

theorem ast_into_insert_not_aborted (iface : Interface) (v e : ASTNode) :
    ((ast_into_insert iface v e).1).isAborted = false := by
  unfold ast_into_insert
  repeat' split
  all_goals first | rfl | exact dd_error_not_aborted _

theorem ast_into_update_not_aborted (iface : Interface) (v e : ASTNode) :
    ((ast_into_update iface v e).1).isAborted = false := by
  unfold ast_into_update
  repeat' split
  all_goals first | rfl | exact dd_error_not_aborted _

theorem ast_user_insert_not_aborted (iface : Interface) (expr : Option (List ASTNode)) :
    ((ast_user_insert iface expr).1).isAborted = false := by
  unfold ast_user_insert
  repeat' split
  all_goals first | rfl | exact dd_error_not_aborted _

theorem ast_user_update_not_aborted (iface : Interface) (expr : Option (List ASTNode)) :
    ((ast_user_update iface expr).1).isAborted = false := by
  unfold ast_user_update
  repeat' split
  all_goals first | rfl | exact dd_error_not_aborted _

theorem ast_user_delete_cons_not_aborted (iface : Interface) (n : ASTNode)
    (rest : List ASTNode) :
    ((ast_user_delete iface (some (n :: rest))).1).isAborted = false := by
  unfold ast_user_delete
  repeat' split
  all_goals first | rfl | exact dd_error_not_aborted _ | simp_all

theorem ast_database_delete_ident_not_aborted (iface : Interface) (name : String)
    (rest : List ASTNode) :
    ((ast_database_delete iface (some (ASTNode.Identifier name :: rest))).1).isAborted = false := by
  cases h : iface.delete_database name <;>
    (simp [ast_database_delete, h]; first | rfl | exact dd_error_not_aborted _)

theorem ast_database_delete_none_not_aborted (iface : Interface) :
    ((ast_database_delete iface none).1).isAborted = false := by
  cases h : iface.delete_database iface.current_database <;>
    (simp [ast_database_delete, h]; first | rfl | exact dd_error_not_aborted _)

theorem ast_sgl_get_ident_not_aborted (iface : Interface) (key : String) :
    ((ast_sgl_get iface (some (ASTNode.Identifier key))).1).isAborted = false := by
  cases h : iface.get_from_dustdata key <;>
    (simp [ast_sgl_get, h]; first | rfl | exact dd_error_not_aborted _)

theorem ast_sgl_delete_ident_not_aborted (iface : Interface) (key : String) :
    ((ast_sgl_delete iface (some (ASTNode.Identifier key))).1).isAborted = false := by
  cases h : iface.delete_from_dustdata key <;>
    (simp [ast_sgl_delete, h]; first | rfl | exact dd_error_not_aborted _)

theorem ast_sgl_list_not_aborted (iface : Interface) :
    ((ast_sgl_list iface).1).isAborted = false := by
  cases h : iface.list_from_dustdata <;>
    (simp [ast_sgl_list, h]; first | rfl | exact dd_error_not_aborted _)

/-- C1 amended: on the spec's parser-guaranteed shape invariants (a single
get/delete target, when present, is an Identifier; the single delete target
is present; a present delete-user argument list is non-empty; a present
delete-database argument list starts with an Identifier), run_ast always
returns a value (Ok Response or Err Error) and never panics; outside those
invariants the executor can abort (C1_abort_counterexample). -/
theorem C1_no_abort_under_parser_invariants (iface : Interface) (ast : ASTNode)
    (h : parserSafe ast = true) : ((run_ast iface ast).1).isAborted = false := by
  cases ast with
  | IntoExpression k j i =>
    cases k with
    | Insert => exact ast_into_insert_not_aborted iface j i
    | Update => exact ast_into_update_not_aborted iface j i
    | Delete => rfl
    | Get => rfl
    | List => rfl
  | MonadicExpression k v e =>
    cases k with
    | Insert =>
      cases v with
      | User => exact ast_user_insert_not_aborted iface e
      | Database => rfl
    | Update =>
      cases v with
      | User => exact ast_user_update_not_aborted iface e
      | Database => rfl
    | Delete =>
      cases v with
      | User =>
        cases e with
        | none => rfl
        | some l =>
          cases l with
          | nil => simp [parserSafe] at h
          | cons n rest => exact ast_user_delete_cons_not_aborted iface n rest
      | Database =>
        cases e with
        | none => exact ast_database_delete_none_not_aborted iface
        | some l =>
          cases l with
          | nil => simp [parserSafe] at h
          | cons n rest =>
            cases n with
            | Identifier name => exact ast_database_delete_ident_not_aborted iface name rest
            | IntoExpression a b c => simp [parserSafe] at h
            | MonadicExpression a b c => simp [parserSafe] at h
            | SingleExpression a b => simp [parserSafe] at h
            | Bson b => simp [parserSafe] at h
            | AssignmentExpression a b => simp [parserSafe] at h
    | Get => rfl
    | List => rfl
  | SingleExpression k i =>
    cases k with
    | Get =>
      cases i with
      | none => rfl
      | some t =>
        cases t with
        | Identifier key => exact ast_sgl_get_ident_not_aborted iface key
        | IntoExpression a b c => simp [parserSafe] at h
        | MonadicExpression a b c => simp [parserSafe] at h
        | SingleExpression a b => simp [parserSafe] at h
        | Bson b => simp [parserSafe] at h
        | AssignmentExpression a b => simp [parserSafe] at h
    | Delete =>
      cases i with
      | none => simp [parserSafe] at h
      | some t =>
        cases t with
        | Identifier key => exact ast_sgl_delete_ident_not_aborted iface key
        | IntoExpression a b c => simp [parserSafe] at h
        | MonadicExpression a b c => simp [parserSafe] at h
        | SingleExpression a b => simp [parserSafe] at h
        | Bson b => simp [parserSafe] at h
        | AssignmentExpression a b => simp [parserSafe] at h
    | List => exact ast_sgl_list_not_aborted iface
    | Insert => rfl
    | Update => rfl
  | Identifier s => rfl
  | Bson b => rfl
  | AssignmentExpression a b => rfl

/-- C1 witness: the amended theorem at a concrete parser-safe input. -/
theorem C1_no_abort_witness :
    parserSafe (ASTNode.SingleExpression Keywords.Get (some (ASTNode.Identifier "k"))) = true ∧
    ((run_ast trivInterface
        (ASTNode.SingleExpression Keywords.Get (some (ASTNode.Identifier "k")))).1).isAborted = false :=
  ⟨rfl, C1_no_abort_under_parser_invariants trivInterface
    (ASTNode.SingleExpression Keywords.Get (some (ASTNode.Identifier "k"))) rfl⟩

/-- C3 counterexample: for a bare top-level literal the rejection message is
the generic "Invalid query", which names neither a keyword/verb nor an
expression kind; the status is InvalidQuery and no storage operation runs. -/
theorem C3_bare_literal_counterexample :
    run_ast trivInterface (ASTNode.Bson (Bson.Int32 1)) =
      (ExecResult.err
          { message := "Invalid query", query_message := none,
            status := Status.InvalidQuery }, []) := rfl

/-- C3 amended: every node whose (shape, keyword, verb) combination is not in
the dispatch table is rejected with status InvalidQuery and no storage
operation, the message naming the unexpected keyword/verb and the expression
kind for the three expression shapes and being the fixed "Invalid query" for
a non-expression shape (rejectionMessage spells the messages out). -/
theorem C3_off_table_rejection (iface : Interface) (ast : ASTNode)
    (h : inDispatchTable ast = false) :
    run_ast iface ast =
      (ExecResult.err
          { message := rejectionMessage ast, query_message := none,
            status := Status.InvalidQuery }, []) := by
  cases ast with
  | IntoExpression k j i =>
    cases k with
    | Insert => simp [inDispatchTable] at h
    | Update => simp [inDispatchTable] at h
    | Delete => rfl
    | Get => rfl
    | List => rfl
  | MonadicExpression k v e =>
    cases k with
    | Insert =>
      cases v with
      | User => simp [inDispatchTable] at h
      | Database => rfl
    | Update =>
      cases v with
      | User => simp [inDispatchTable] at h
      | Database => rfl
    | Delete => simp [inDispatchTable] at h
    | Get => rfl
    | List => rfl
  | SingleExpression k i =>
    cases k with
    | Get => simp [inDispatchTable] at h
    | Delete => simp [inDispatchTable] at h
    | List => simp [inDispatchTable] at h
    | Insert => rfl
    | Update => rfl
  | Identifier s => rfl
  | Bson b => rfl
  | AssignmentExpression a b => rfl

/-- C3 witness: the amended theorem at a single-expression Insert, an
off-table combination whose message names the keyword and the kind. -/
theorem C3_off_table_witness :
    inDispatchTable (ASTNode.SingleExpression Keywords.Insert none) = false ∧
    run_ast trivInterface (ASTNode.SingleExpression Keywords.Insert none) =
      (ExecResult.err
          { message := "Insert is unexpected for single expression",
            query_message := none, status := Status.InvalidQuery }, []) :=
  ⟨rfl, C3_off_table_rejection trivInterface (ASTNode.SingleExpression Keywords.Insert none) rfl⟩

/-- C4 counterexample: a user update whose argument list contains no
Identifier is not rejected: on a successful interface the executor returns
Ok, forwarding the empty string as the username to update_user. -/
theorem C4_no_identifier_counterexample :
    run_ast trivInterface (ASTNode.MonadicExpression Keywords.Update Verbs.User (some [])) =
      (ExecResult.ok emptyOkResponse, [StorageOp.updateUser "" none none]) := rfl

theorem user_update_scan_no_ident (l : List ASTNode)
    (h : ∀ n ∈ l, n.isIdentifier = false) :
    ∀ pw pm un pw2 pm2 un2,
      user_update_scan l pw pm un = Except.ok (pw2, pm2, un2) → un2 = un := by
  induction l with
  | nil =>
    intro pw pm un pw2 pm2 un2 hs
    simp [user_update_scan] at hs
    exact hs.2.2.symm
  | cons n rest ih =>
    intro pw pm un pw2 pm2 un2 hs
    have hrest : ∀ x ∈ rest, x.isIdentifier = false :=
      fun x hx => h x (List.mem_cons_of_mem _ hx)
    cases n with
    | AssignmentExpression a v =>
      simp only [user_update_scan] at hs
      repeat' split at hs
      all_goals first
        | exact ih hrest _ _ _ _ _ _ hs
        | simp at hs
    | Identifier s =>
      have hn := h (ASTNode.Identifier s) (List.mem_cons_self _ _)
      simp [ASTNode.isIdentifier] at hn
    | IntoExpression a b c =>
      simp only [user_update_scan] at hs
      exact ih hrest _ _ _ _ _ _ hs
    | MonadicExpression a b c =>
      simp only [user_update_scan] at hs
      exact ih hrest _ _ _ _ _ _ hs
    | SingleExpression a b =>
      simp only [user_update_scan] at hs
      exact ih hrest _ _ _ _ _ _ hs
    | Bson b =>
      simp only [user_update_scan] at hs
      exact ih hrest _ _ _ _ _ _ hs

/-- C4 amended: the username of a user update is not validated: for an
argument list without any Identifier node the executor either stops on a
scan error (no storage call) or forwards the update with the empty string as
username; it never returns a query error on account of the missing
username. -/
theorem C4_update_username_unchecked (iface : Interface) (l : List ASTNode)
    (h : ∀ n ∈ l, n.isIdentifier = false) :
    (run_ast iface (ASTNode.MonadicExpression Keywords.Update Verbs.User (some l))).2 = [] ∨
    ∃ pw pm,
      (run_ast iface (ASTNode.MonadicExpression Keywords.Update Verbs.User (some l))).2 =
        [StorageOp.updateUser "" pw pm] := by
  cases hs : user_update_scan l none none "" with
  | error e =>
    refine Or.inl ?_
    simp [run_ast, monadic_expr, ast_user_update, hs]
  | ok triple =>
    obtain ⟨pw, pm, un⟩ := triple
    have hun : un = "" := user_update_scan_no_ident l h none none "" pw pm un hs
    subst hun
    cases pm with
    | none =>
      refine Or.inr ⟨pw, none, ?_⟩
      cases hu : iface.update_user "" pw none <;>
        simp [run_ast, monadic_expr, ast_user_update, hs, hu]
    | some p =>
      cases hfs : UserPermission.from_str p with
      | error u =>
        refine Or.inl ?_
        simp [run_ast, monadic_expr, ast_user_update, hs, hfs, Except.map]
      | ok p2 =>
        refine Or.inr ⟨pw, some p2, ?_⟩
        cases hu : iface.update_user "" pw (some p2) <;>
          simp [run_ast, monadic_expr, ast_user_update, hs, hfs, hu, Except.map]

/-- C4 witness: the amended theorem at the empty argument list, where the
right disjunct holds: update_user is called with the empty username. -/
theorem C4_update_username_witness :
    (∀ n ∈ ([] : List ASTNode), n.isIdentifier = false) ∧
    ((run_ast trivInterface (ASTNode.MonadicExpression Keywords.Update Verbs.User (some []))).2 = [] ∨
      ∃ pw pm,
        (run_ast trivInterface (ASTNode.MonadicExpression Keywords.Update Verbs.User (some []))).2 =
          [StorageOp.updateUser "" pw pm]) :=
  ⟨by simp, C4_update_username_unchecked trivInterface [] (by simp)⟩

/-- C5 counterexample: in a user update, a password assignment whose value is
a non-string Bson literal is a hard query error "password must be a string"
with no storage call — it is not treated as an absent field. -/
theorem C5_nonstring_literal_counterexample :
    run_ast trivInterface (ASTNode.MonadicExpression Keywords.Update Verbs.User
        (some [ASTNode.Identifier "u",
          ASTNode.AssignmentExpression "password" (ASTNode.Bson (Bson.Int32 5))])) =
      (ExecResult.err (queryErr "password must be a string"), []) := rfl

/-- C5 amended: a recognized assignment whose value is a Bson literal of
non-string kind is a hard query error in update exactly as in insert
("password must be a string" / "permission must be a string"); only a value
that is not a Bson literal at all is treated as absent (forwarded as None)
in update, while in insert such a value is also a hard error. -/
theorem C5_literal_kind_boundary :
    (∀ (iface : Interface) (u : String) (b : Bson), b.as_str = none →
      run_ast iface (ASTNode.MonadicExpression Keywords.Update Verbs.User
          (some [ASTNode.Identifier u,
            ASTNode.AssignmentExpression "password" (ASTNode.Bson b)])) =
        (ExecResult.err (queryErr "password must be a string"), [])) ∧
    (∀ (iface : Interface) (u : String) (b : Bson), b.as_str = none →
      run_ast iface (ASTNode.MonadicExpression Keywords.Update Verbs.User
          (some [ASTNode.Identifier u,
            ASTNode.AssignmentExpression "permission" (ASTNode.Bson b)])) =
        (ExecResult.err (queryErr "permission must be a string"), [])) ∧
    (∀ (iface : Interface) (u : String) (b : Bson), b.as_str = none →
      run_ast iface (ASTNode.MonadicExpression Keywords.Insert Verbs.User
          (some [ASTNode.Identifier u,
            ASTNode.AssignmentExpression "password" (ASTNode.Bson b)])) =
        (ExecResult.err (queryErr "password must be a string"), [])) ∧
    (∀ (iface : Interface) (u : String) (b : Bson), b.as_str = none →
      run_ast iface (ASTNode.MonadicExpression Keywords.Insert Verbs.User
          (some [ASTNode.Identifier u,
            ASTNode.AssignmentExpression "permission" (ASTNode.Bson b)])) =
        (ExecResult.err (queryErr "permission must be a string"), [])) ∧
    (∀ (iface : Interface) (u : String) (v : ASTNode), v.isBsonNode = false →
      (run_ast iface (ASTNode.MonadicExpression Keywords.Update Verbs.User
          (some [ASTNode.Identifier u,
            ASTNode.AssignmentExpression "password" v]))).2 =
        [StorageOp.updateUser u none none]) ∧
    (∀ (iface : Interface) (u : String) (v : ASTNode), v.isBsonNode = false →
      (run_ast iface (ASTNode.MonadicExpression Keywords.Update Verbs.User
          (some [ASTNode.Identifier u,
            ASTNode.AssignmentExpression "permission" v]))).2 =
        [StorageOp.updateUser u none none]) ∧
    (∀ (iface : Interface) (u : String) (v : ASTNode), v.isBsonNode = false →
      run_ast iface (ASTNode.MonadicExpression Keywords.Insert Verbs.User
          (some [ASTNode.Identifier u,
            ASTNode.AssignmentExpression "password" v])) =
        (ExecResult.err (queryErr "password must be a string"), [])) ∧
    (∀ (iface : Interface) (u : String) (v : ASTNode), v.isBsonNode = false →
      run_ast iface (ASTNode.MonadicExpression Keywords.Insert Verbs.User
          (some [ASTNode.Identifier u,
            ASTNode.AssignmentExpression "permission" v])) =
        (ExecResult.err (queryErr "permission must be a string"), [])) := by
  refine ⟨?_, ?_, ?_, ?_, ?_, ?_, ?_, ?_⟩
  · intro iface u b hb
    cases b <;> first | rfl | simp [Bson.as_str] at hb
  · intro iface u b hb
    cases b <;> first | rfl | simp [Bson.as_str] at hb
  · intro iface u b hb
    cases b <;> first | rfl | simp [Bson.as_str] at hb
  · intro iface u b hb
    cases b <;> first | rfl | simp [Bson.as_str] at hb
  · intro iface u v hv
    cases v <;> first
      | (simp [ASTNode.isBsonNode] at hv; done)
      | (cases hu : iface.update_user u none none <;>
          simp [run_ast, monadic_expr, ast_user_update, user_update_scan, hu])
  · intro iface u v hv
    cases v <;> first
      | (simp [ASTNode.isBsonNode] at hv; done)
      | (cases hu : iface.update_user u none none <;>
          simp [run_ast, monadic_expr, ast_user_update, user_update_scan, hu])
  · intro iface u v hv
    cases v <;> first | rfl | simp [ASTNode.isBsonNode] at hv
  · intro iface u v hv
    cases v <;> first | rfl | simp [ASTNode.isBsonNode] at hv

/-- C5 witness: the first conjunct of the amended theorem at a concrete
non-string literal (an Int32) in an update password assignment. -/
theorem C5_literal_kind_witness :
    (Bson.Int32 7).as_str = none ∧
    run_ast trivInterface (ASTNode.MonadicExpression Keywords.Update Verbs.User
        (some [ASTNode.Identifier "alice",
          ASTNode.AssignmentExpression "password" (ASTNode.Bson (Bson.Int32 7))])) =
      (ExecResult.err (queryErr "password must be a string"), []) :=
  ⟨rfl, C5_literal_kind_boundary.1 trivInterface "alice" (Bson.Int32 7) rfl⟩

end Rustbase
